import Mathlib

/-!
Verification development for the wazzup multi-tenant webhook ingestion pipeline.

The definitions below are a shallow embedding of the Rust source:
  * src/services/webhook_handler.rs  (validation, direction inference, dedup,
    reconciliation of channels/chats/clients, message persistence, bot routing)
  * src/services/bot_service.rs      (manager selection, bot hook lookup)
  * src/database/pool_manager.rs     (per-tenant connection pool)
  * src/database/{main,client} models (row shapes)

Database I/O is modelled by explicit state passing over a `Db` record of tables
(lists of rows, in insertion order, mirroring SeaORM's `one()` = first match and
`all()` = every match), plus an `Env` record carrying the behaviour of the
outside world during one handler invocation: the clock, the bot callback
outcome, the outbound-send outcome, the random index drawn for manager
selection, and fault-injection flags for the underlying database (`findFails`
makes every read query return `DbErr`, `writeFails` makes every insert/update
fail).  Each stateful function returns its `Except` result together with the
final database state and the list of effects (queries, successful writes,
external calls) it performed, so frame and "no write happened" properties are
directly statable.

Wall-clock time is modelled as the constant `Env.now` for the duration of one
handler call; none of the verified properties depend on timestamps advancing
within a call.
-/

set_option maxRecDepth 8000

/-- Error taxonomy, from src/errors.rs (`AppError`); `externalApiError` is the
variant constructed by src/services/bot_service.rs.  `dbError` abstracts the
carried `sea_orm::DbErr` payload. -/
inductive AppError where
  | dbError
  | notFound (msg : String)
  | invalidInput (msg : String)
  | forbidden (msg : String)
  | externalApiError (msg : String)
  | internal
deriving DecidableEq, Repr

/-- `true` exactly on the `InvalidInput` variant. -/
def AppError.isInvalidInput : AppError → Bool
  | .invalidInput _ => true
  | _ => false

/-- One observable effect of a handler run: a read query against a table, a
successful row insert or update, or an outbound HTTP call. -/
inductive Eff where
  | query (table : String)
  | insert (table : String)
  | update (table : String)
  | externCall (target : String)
deriving DecidableEq, Repr

/-- Inserts and updates are writes; queries and external calls are not. -/
def Eff.isWrite : Eff → Bool
  | .insert _ => true
  | .update _ => true
  | _ => false

/-- One element of a message's JSON content array, from
src/services/webhook_handler.rs (`MessageContentItem`). -/
structure MessageContentItem where
  type : String
  content : String
deriving DecidableEq, Repr

/-- A `wazzup_channels` row (client DB): string primary key plus transport type. -/
structure ChannelRow where
  id : String
  type : String
deriving DecidableEq, Repr

/-- A `wazzup_chats` row (client DB): string primary key plus channel reference. -/
structure ChatRow where
  id : String
  channel_id : String
deriving DecidableEq, Repr

/-- A `clients` row (client DB model `clients`). -/
structure ClientRow where
  id : Int
  full_name : String
  email : String
  phone : Option String
  wazzup_chat : Option String
  responsible_user_id : Option Int
  created_at : Int
deriving DecidableEq, Repr

/-- A `users` row restricted to the fields the webhook pipeline reads: the
primary key, the role string ("bot" / "manager" / "admin" / "quality_control")
and the bot callback URL (`hook`, read by `BotService::get_bot_hook_url`). -/
structure UserRow where
  id : Int
  role : String
  hook : Option String
deriving DecidableEq, Repr

/-- A `wazzup_messages` row (client DB). -/
structure MessageRow where
  id : String
  content : List MessageContentItem
  chat_id : String
  created_at : Int
  is_inbound : Option Bool
  is_echo : Option Bool
  direction_status : Option String
  author_name : Option String
  author_id : Option String
deriving DecidableEq, Repr

/-- A `companies` row of the main database (src/database/main/models.rs),
restricted to the fields the webhook pipeline reads. -/
structure CompanyModel where
  id : Int
  name : String
  database_name : String
  wazzup_api_key : String
  is_active : Option Bool
deriving DecidableEq, Repr

/-- The tenant (client) database state: one list of rows per table, in
insertion order, plus the next auto-generated `clients` primary key. -/
structure Db where
  channels : List ChannelRow
  chats : List ChatRow
  clients : List ClientRow
  users : List UserRow
  messages : List MessageRow
  nextClientId : Int
deriving DecidableEq, Repr

/-- Response body of the bot callback (src/services/bot_service.rs
`BotHookResponse`). -/
structure BotHookResponse where
  status : String
  message : String
deriving DecidableEq, Repr

/-- Behaviour of the outside world during one handler invocation. -/
structure Env where
  /-- Current time in epoch milliseconds (`Utc::now()`), constant per call. -/
  now : Int
  /-- Outcome of the bot hook POST: `.error ()` models network failure or the
  30s timeout; `.ok r` a 2xx response with parsed body `r`. -/
  botResult : Except Unit BotHookResponse
  /-- Whether an outbound `send_message` call to the messaging provider succeeds. -/
  sendOk : Bool
  /-- The random draw used by `select_random_manager` (`fastrand::usize`). -/
  pick : Nat
  /-- Whether opening a new database connection succeeds. -/
  connectOk : Bool
  /-- Fault injection: every database read query fails with `DbErr`. -/
  findFails : Bool
  /-- Fault injection: every database insert/update fails with `DbErr`. -/
  writeFails : Bool

/-- Webhook payload: contact info nested in a message event. -/
structure WebhookContact where
  name : Option String
  avatar_uri : Option String
  username : Option String
  phone : Option String
deriving DecidableEq, Repr

/-- Webhook payload: one message event (`WebhookMessage`). -/
structure WebhookMessage where
  message_id : String
  channel_id : String
  chat_type : String
  chat_id : String
  type : String
  text : Option String
  content_uri : Option String
  client_name : Option String
  client_phone : Option String
  date_time : Option String
  is_echo : Option Bool
  status : Option String
  contact : Option WebhookContact
  author_name : Option String
  author_id : Option String
deriving DecidableEq, Repr

/-- Webhook payload: one contact event (`WebhookContactEvent`). -/
structure WebhookContactEvent where
  contact_id : String
  name : Option String
  phone : Option String
  email : Option String
  chat_id : Option String
  channel_id : Option String
deriving DecidableEq, Repr

/-- Webhook payload: the whole batch (`WebhookRequest`). -/
structure WebhookRequest where
  test : Option Bool
  messages : Option (List WebhookMessage)
  contacts : Option (List WebhookContactEvent)
deriving DecidableEq, Repr

/-- Models Rust's `str::trim`: strip leading and trailing whitespace
(list-based so that concrete evaluation reduces in the kernel). -/
def trimString (s : String) : String :=
  String.mk (((s.data.dropWhile Char.isWhitespace).reverse.dropWhile Char.isWhitespace).reverse)

/-- Models Rust's `str::contains(char)` (list-based). -/
def containsChar (s : String) (c : Char) : Bool := s.data.contains c

/-- Models Rust's `str::starts_with("@")` for a single character(list-based). -/
def startsWithChar (s : String) (c : Char) : Bool := s.data.head? == some c

/-- Models Rust's `str::ends_with("@")` for a single character (list-based). -/
def endsWithChar (s : String) (c : Char) : Bool := s.data.getLast? == some c

/-- Models Rust's `str::to_lowercase` on the ASCII fragment (list-based). -/
def toLowerString (s : String) : String := String.mk (s.data.map Char.toLower)

/-- Models Rust's `char::is_alphanumeric` (true on Unicode `Alphabetic`
characters and the numeric categories Nd/Nl/No).  The table below is exact on
ASCII, the Latin-1 Supplement, Latin Extended-A/B (U+0100..U+024F, all
letters) and the Cyrillic block (U+0400..U+04FF: letters on either side of
the thousands sign U+0482 and the combining marks U+0483..U+0489).  Code
points outside these blocks are conservatively rejected — an
under-approximation of the Rust standard library's full Unicode tables,
restricted to the alphabets this development exercises. -/
def isAlphanumeric (c : Char) : Bool :=
  let n := c.toNat
  (0x30 ≤ n && n ≤ 0x39) || (0x41 ≤ n && n ≤ 0x5A) || (0x61 ≤ n && n ≤ 0x7A) ||
  n == 0xAA || n == 0xB2 || n == 0xB3 || n == 0xB5 || n == 0xB9 || n == 0xBA ||
  (0xBC ≤ n && n ≤ 0xBE) ||
  (0xC0 ≤ n && n ≤ 0xD6) || (0xD8 ≤ n && n ≤ 0xF6) || (0xF8 ≤ n && n ≤ 0xFF) ||
  (0x100 ≤ n && n ≤ 0x24F) ||
  (0x400 ≤ n && n ≤ 0x481) || (0x48A ≤ n && n ≤ 0x4FF)

/-- Number of bytes of a character's UTF-8 encoding (exact, by scalar-value
range). -/
def charUtf8Size (c : Char) : Nat :=
  if c.toNat < 0x80 then 1
  else if c.toNat < 0x800 then 2
  else if c.toNat < 0x10000 then 3
  else 4

/-- Models Rust's `str::len`: the length of the string in UTF-8 bytes. -/
def utf8Length (s : String) : Nat :=
  s.data.foldl (fun n c => n + charUtf8Size c) 0

/-- src/services/webhook_handler.rs `validate_id`: non-empty, at most 100
UTF-8 bytes (`id.len()` in Rust counts bytes), and containing only
alphanumerics, `-` and `_` (`id.is_empty()` holds iff there are no
characters, hence the character-count emptiness test). -/
def validate_id (id : String) : Bool :=
  if id.length = 0 || utf8Length id > 100 then false
  else id.data.all (fun c => isAlphanumeric c || c == '-' || c == '_')

/-- src/services/webhook_handler.rs `validate_and_normalize_email` (the 254
bound is `trimmed.len()`, a byte count). -/
def validate_and_normalize_email (email : String) : Option String :=
  let trimmed := trimString email
  if trimmed.length = 0 || utf8Length trimmed > 254 then none
  else if !(containsChar trimmed '@') || startsWithChar trimmed '@' || endsWithChar trimmed '@' then none
  else some (toLowerString trimmed)

/-- src/services/webhook_handler.rs `validate_and_normalize_name` (the 255
bound is `trimmed.len()`, a byte count). -/
def validate_and_normalize_name (name : String) : Option String :=
  let trimmed := trimString name
  if trimmed.length = 0 || utf8Length trimmed > 255 then none
  else
    let cleaned := String.mk (trimmed.data.filter
      (fun c => isAlphanumeric c || c.isWhitespace || containsChar "-_.,()[]\x7b\x7d" c))
    if cleaned.length = 0 then none else some cleaned

/-- src/services/webhook_handler.rs `validate_and_normalize_phone` (the 20
bound is `trimmed.len()`, a byte count). -/
def validate_and_normalize_phone (phone : String) : Option String :=
  let trimmed := trimString phone
  if trimmed.length = 0 || utf8Length trimmed > 20 then none
  else
    let cleaned := String.mk (trimmed.data.filter
      (fun c => c.isDigit || containsChar "+()-. " c))
    if cleaned.length = 0 then none else some cleaned

/-- src/services/webhook_handler.rs `determine_message_direction`: returns
`(is_inbound, direction_description)`. -/
def determine_message_direction (msg : WebhookMessage) : Bool × String :=
  match msg.is_echo with
  | some false => (true, "ВХОДЯЩЕЕ (от клиента)")
  | some true => (false, "ИСХОДЯЩЕЕ (отправлено не из API)")
  | none =>
    match msg.status with
    | some s => if s = "inbound" then (true, "ВХОДЯЩЕЕ (по статусу)") else (false, "НАПРАВЛЕНИЕ НЕ ОПРЕДЕЛЕНО")
    | none => (false, "НАПРАВЛЕНИЕ НЕ ОПРЕДЕЛЕНО")

/-- src/services/webhook_handler.rs `extract_message_text`: content of the
first `text`-typed item, or the empty string. -/
def extract_message_text (content : List MessageContentItem) : String :=
  match content.find? (fun item => item.type == "text") with
  | some item => item.content
  | none => ""

/-- src/services/webhook_handler.rs `find_bot_user` (pure part): the id of the
first user whose role is `"bot"`, if any. -/
def find_bot_user (users : List UserRow) : Option Int :=
  (users.find? (fun u => u.role == "bot")).map (fun u => u.id)

/-- The content array recomputed for the content-dedup check in
`handle_messages` (webhook_handler.rs lines 580-624); for `missing_call` it
uses the raw, unvalidated client phone/name. -/
def content_for_check (msg : WebhookMessage) : List MessageContentItem :=
  if msg.type == "missing_call" then
    let phone := msg.client_phone.getD msg.chat_id
    let name := msg.client_name.getD "Неизвестный контакт"
    [⟨"missing_call", "Пропущенный звонок от " ++ name ++ " (" ++ phone ++ ")"⟩]
  else
    let textItems : List MessageContentItem :=
      match msg.text with
      | some t => if (trimString t).length = 0 then [] else [⟨"text", (trimString t)⟩]
      | none => []
    let uriItems : List MessageContentItem :=
      match msg.content_uri with
      | some u => if (trimString u).length = 0 then [] else [⟨msg.type, (trimString u)⟩]
      | none => []
    let items := textItems ++ uriItems
    if items.isEmpty then [⟨msg.type, "[" ++ msg.type ++ "]"⟩] else items

/-- The content array actually persisted (webhook_handler.rs lines 691-757);
for `missing_call` it validates/normalizes the client phone and name first. -/
def content_for_save (msg : WebhookMessage) : List MessageContentItem :=
  if msg.type == "missing_call" then
    let phone := (msg.client_phone.bind validate_and_normalize_phone).getD msg.chat_id
    let name := (msg.client_name.bind validate_and_normalize_name).getD "Неизвестный контакт"
    [⟨"missing_call", "Пропущенный звонок от " ++ name ++ " (" ++ phone ++ ")"⟩]
  else
    let textItems : List MessageContentItem :=
      match msg.text with
      | some t => if (trimString t).length = 0 then [] else [⟨"text", (trimString t)⟩]
      | none => []
    let uriItems : List MessageContentItem :=
      match msg.content_uri with
      | some u => if (trimString u).length = 0 then [] else [⟨msg.type, (trimString u)⟩]
      | none => []
    let items := textItems ++ uriItems
    if items.isEmpty then [⟨msg.type, "[" ++ msg.type ++ "]"⟩] else items

example : validate_id "m1" = true := by decide
example : validate_id "bad id" = false := by decide
example : validate_id "" = false := by decide
example : determine_message_direction
    ⟨"m", "c", "whatsapp", "ch", "text", none, none, none, none, none, none, none, none, none, none⟩ =
    (false, "НАПРАВЛЕНИЕ НЕ ОПРЕДЕЛЕНО") := by decide

deriving instance DecidableEq for Except

/-- Result of one stateful pipeline step: the `Except` outcome, the final
tenant database state, and the list of effects performed, in order. -/
structure StepResult (α : Type) where
  res : Except AppError α
  db : Db
  trace : List Eff
deriving DecidableEq

/-- Ordered insertion of a user into a list sorted by ascending id (helper for
modelling `order_by_asc(users::Column::Id)`). -/
def insertByIdAsc (u : UserRow) : List UserRow → List UserRow
  | [] => [u]
  | v :: vs => if u.id ≤ v.id then u :: v :: vs else v :: insertByIdAsc u vs

/-- Sort a user list by ascending id (models `order_by_asc(users::Column::Id)`
in `select_random_manager`). -/
def sortByIdAsc : List UserRow → List UserRow
  | [] => []
  | u :: us => insertByIdAsc u (sortByIdAsc us)

/-- src/services/bot_service.rs `select_random_manager`: all users with role
`"manager"` ordered by id; error if none; otherwise the entry at the random
index `env.pick` (uniform over the list).  Performs no writes. -/
def select_random_manager (env : Env) (db : Db) : Except AppError UserRow × List Eff :=
  if env.findFails then (.error .dbError, [.query "users"])
  else
    match sortByIdAsc (db.users.filter (fun u => u.role == "manager")) with
    | [] => (.error (.notFound "No managers available"), [.query "users"])
    | m0 :: rest => (.ok ((m0 :: rest).getD (env.pick % (m0 :: rest).length) m0), [.query "users"])

/-- src/services/bot_service.rs `get_bot_hook_url`: look the user up by id
(`NotFound` if missing); return the hook URL when the role is `"bot"`, `none`
otherwise. -/
def get_bot_hook_url (env : Env) (db : Db) (user_id : Int) : Except AppError (Option String) × List Eff :=
  if env.findFails then (.error .dbError, [.query "users"])
  else
    match db.users.find? (fun u => u.id == user_id) with
    | none => (.error (.notFound "User not found"), [.query "users"])
    | some u => if u.role == "bot" then (.ok u.hook, [.query "users"]) else (.ok none, [.query "users"])

/-- Reassign the responsible user of the client with the given id. -/
def reassignTo (client_id target : Int) (c : ClientRow) : ClientRow :=
  if c.id == client_id then {c with responsible_user_id := some target} else c

/-- src/services/webhook_handler.rs `transfer_to_random_manager`: select a
random manager (errors propagate, leaving the database untouched), load the
client by id (`NotFound` if missing), and persist the new responsible user. -/
def transfer_to_random_manager (env : Env) (db : Db) (client_id : Int) : StepResult Unit :=
  let sel := select_random_manager env db
  match sel.1 with
  | .error e => ⟨.error e, db, sel.2⟩
  | .ok manager =>
    if env.findFails then ⟨.error .dbError, db, sel.2 ++ [.query "clients"]⟩
    else
      match db.clients.find? (fun c => c.id == client_id) with
      | none => ⟨.error (.notFound "Client not found"), db, sel.2 ++ [.query "clients"]⟩
      | some _ =>
        if env.writeFails then ⟨.error .dbError, db, sel.2 ++ [.query "clients"]⟩
        else
          ⟨.ok (), {db with clients := db.clients.map (reassignTo client_id manager.id)},
           sel.2 ++ [.query "clients", .update "clients"]⟩

/-- src/services/webhook_handler.rs `send_bot_message`: load the chat with its
channel, then relay the bot's reply through the provider API.  Never touches
the tenant database. -/
def send_bot_message (env : Env) (db : Db) (chat_id : String) : Except AppError Unit × List Eff :=
  if env.findFails then (.error .dbError, [.query "wazzup_chats"])
  else
    match db.chats.find? (fun ch => ch.id == chat_id) with
    | none => (.error (.notFound "Chat not found"), [.query "wazzup_chats"])
    | some chat =>
      match db.channels.find? (fun ch => ch.id == chat.channel_id) with
      | none => (.error (.notFound "Channel not found"), [.query "wazzup_chats"])
      | some _ =>
        if env.sendOk then (.ok (), [.query "wazzup_chats", .externCall "wazzup_send_message"])
        else (.error (.externalApiError "send failed"), [.query "wazzup_chats", .externCall "wazzup_send_message"])

/-- src/services/webhook_handler.rs `handle_bot_interaction`: find the client
of the message's chat, its responsible user, and that user's bot hook; invoke
the hook; on success relay the reply (failures logged); on an `"error"` status
or a failed/timed-out callback, transfer the client to a random manager
(failures logged).  An unknown status is only logged. -/
def handle_bot_interaction (env : Env) (db : Db) (message : MessageRow) : StepResult Unit :=
  if env.findFails then ⟨.error .dbError, db, [.query "clients"]⟩
  else
    match db.clients.find? (fun c => c.wazzup_chat == some message.chat_id) with
    | none => ⟨.ok (), db, [.query "clients"]⟩
    | some client =>
      match client.responsible_user_id with
      | none => ⟨.ok (), db, [.query "clients"]⟩
      | some responsible_user_id =>
        let g := get_bot_hook_url env db responsible_user_id
        match g.1 with
        | .error e => ⟨.error e, db, .query "clients" :: g.2⟩
        | .ok none => ⟨.ok (), db, .query "clients" :: g.2⟩
        | .ok (some _hook_url) =>
          let tr := .query "clients" :: g.2 ++ [.externCall "bot_hook"]
          match env.botResult with
          | .ok resp =>
            if resp.status == "success" then
              ⟨.ok (), db, tr ++ (send_bot_message env db message.chat_id).2⟩
            else if resp.status == "error" then
              let r := transfer_to_random_manager env db client.id
              ⟨.ok (), r.db, tr ++ r.trace⟩
            else ⟨.ok (), db, tr⟩
          | .error _ =>
            let r := transfer_to_random_manager env db client.id
            ⟨.ok (), r.db, tr ++ r.trace⟩

/-- The client full-name fallback chain of
src/services/webhook_handler.rs `create_client_from_message` (lines 855-922):
trimmed client name, else "Клиент " + trimmed phone, else a chat-type specific
placeholder built from the chat id. -/
def client_full_name_from_message (msg : WebhookMessage) : String :=
  let chatFallback :=
    if msg.chat_type == "whatsapp" then "WhatsApp " ++ msg.chat_id else "Клиент " ++ msg.chat_id
  let phoneFallback :=
    match msg.client_phone with
    | some p => if (trimString p).length = 0 then chatFallback else "Клиент " ++ (trimString p)
    | none => chatFallback
  match msg.client_name with
  | some n => if (trimString n).length = 0 then phoneFallback else (trimString n)
  | none => phoneFallback

/-- src/services/webhook_handler.rs `create_client_from_message`: if no client
is linked to the chat, create one (name fallback chain, generated email from
chat id and timestamp, trimmed phone, bot user as initial responsible); both
lookup queries propagate failure (the constant fault flag is checked once);
the insert failure is caught and logged.  After a successful insert a Wazzup
contact is created via the provider API when the company has an API key. -/
def create_client_from_message (env : Env) (db : Db) (msg : WebhookMessage) (company : CompanyModel) : StepResult Unit :=
  if env.findFails then ⟨.error .dbError, db, [.query "clients"]⟩
  else
    match db.clients.find? (fun c => c.wazzup_chat == some msg.chat_id) with
    | some _ => ⟨.ok (), db, [.query "clients"]⟩
    | none =>
      let full_name := client_full_name_from_message msg
      let email := msg.chat_id ++ "+" ++ toString env.now ++ "@generated.wazzup"
      let phone :=
        match msg.client_phone with
        | some p => if (trimString p).length = 0 then none else some (trimString p)
        | none => none
      let bot_user_id := find_bot_user db.users
      if env.writeFails then ⟨.ok (), db, [.query "clients", .query "users"]⟩
      else
        let newClient : ClientRow :=
          ⟨db.nextClientId, full_name, email, phone, some msg.chat_id, bot_user_id, env.now⟩
        let db2 := {db with clients := db.clients ++ [newClient], nextClientId := db.nextClientId + 1}
        if company.wazzup_api_key.length = 0 then
          ⟨.ok (), db2, [.query "clients", .query "users", .insert "clients"]⟩
        else
          ⟨.ok (), db2, [.query "clients", .query "users", .insert "clients", .externCall "wazzup_create_contacts"]⟩

/-- The channel upsert step of `handle_messages`
(src/services/webhook_handler.rs lines 646-664): create the channel when
absent (insert failure caught and logged); when a channel with this id exists,
nothing is written — the stored transport type is left as it is. -/
def ensure_channel_exists (env : Env) (db : Db) (msg : WebhookMessage) : StepResult Unit :=
  if env.findFails then ⟨.error .dbError, db, [.query "wazzup_channels"]⟩
  else
    match db.channels.find? (fun ch => ch.id == msg.channel_id) with
    | some _ => ⟨.ok (), db, [.query "wazzup_channels"]⟩
    | none =>
      if env.writeFails then ⟨.ok (), db, [.query "wazzup_channels"]⟩
      else
        ⟨.ok (), {db with channels := db.channels ++ [⟨msg.channel_id, msg.chat_type⟩]},
         [.query "wazzup_channels", .insert "wazzup_channels"]⟩

/-- The chat upsert step of `handle_messages`
(src/services/webhook_handler.rs lines 666-684): create the chat when absent
(insert failure caught and logged); nothing is updated when it exists. -/
def ensure_chat_exists (env : Env) (db : Db) (msg : WebhookMessage) : StepResult Unit :=
  if env.findFails then ⟨.error .dbError, db, [.query "wazzup_chats"]⟩
  else
    match db.chats.find? (fun ch => ch.id == msg.chat_id) with
    | some _ => ⟨.ok (), db, [.query "wazzup_chats"]⟩
    | none =>
      if env.writeFails then ⟨.ok (), db, [.query "wazzup_chats"]⟩
      else
        ⟨.ok (), {db with chats := db.chats ++ [⟨msg.chat_id, msg.channel_id⟩]},
         [.query "wazzup_chats", .insert "wazzup_chats"]⟩

/-- The `wazzup_messages` row persisted for a message event
(src/services/webhook_handler.rs lines 768-778). -/
def saved_message_row (env : Env) (msg : WebhookMessage) : MessageRow :=
  ⟨msg.message_id, content_for_save msg, msg.chat_id, env.now,
   some (determine_message_direction msg).1, msg.is_echo, msg.status,
   msg.author_name, msg.author_id⟩

/-- One iteration of the `handle_messages` loop
(src/services/webhook_handler.rs lines 499-814): id validation (skip on
failure), primary dedup by message id, content dedup within the chat, channel
and chat upsert, client reconciliation, content construction, message insert
(failure caught), and bot routing for inbound messages (failure caught). -/
def process_message_event (env : Env) (company : CompanyModel) (db : Db) (msg : WebhookMessage) : StepResult Unit :=
  if !(validate_id msg.message_id) then ⟨.ok (), db, []⟩
  else if !(validate_id msg.channel_id) then ⟨.ok (), db, []⟩
  else if !(validate_id msg.chat_id) then ⟨.ok (), db, []⟩
  else if env.findFails then ⟨.error .dbError, db, [.query "wazzup_messages"]⟩
  else
    match db.messages.find? (fun m => m.id == msg.message_id) with
    | some _ => ⟨.ok (), db, [.query "wazzup_messages"]⟩
    | none =>
      let tr0 : List Eff := [.query "wazzup_messages", .query "wazzup_messages"]
      if !(db.messages.filter (fun m => m.chat_id == msg.chat_id && m.content == content_for_check msg)).isEmpty then
        ⟨.ok (), db, tr0⟩
      else
        let s1 := ensure_channel_exists env db msg
        match s1.res with
        | .error e => ⟨.error e, s1.db, tr0 ++ s1.trace⟩
        | .ok _ =>
          let s2 := ensure_chat_exists env s1.db msg
          match s2.res with
          | .error e => ⟨.error e, s2.db, tr0 ++ s1.trace ++ s2.trace⟩
          | .ok _ =>
            let s3 := create_client_from_message env s2.db msg company
            match s3.res with
            | .error e => ⟨.error e, s3.db, tr0 ++ s1.trace ++ s2.trace ++ s3.trace⟩
            | .ok _ =>
              if env.writeFails then ⟨.ok (), s3.db, tr0 ++ s1.trace ++ s2.trace ++ s3.trace⟩
              else
                let row := saved_message_row env msg
                let db4 := {s3.db with messages := s3.db.messages ++ [row]}
                let tr4 := tr0 ++ s1.trace ++ s2.trace ++ s3.trace ++ [.insert "wazzup_messages"]
                if (determine_message_direction msg).1 then
                  let r := handle_bot_interaction env db4 row
                  ⟨.ok (), r.db, tr4 ++ r.trace⟩
                else ⟨.ok (), db4, tr4⟩

/-- src/services/webhook_handler.rs `handle_messages`: process the events in
array order; an error propagated out of one iteration aborts the batch. -/
def handle_messages (env : Env) (company : CompanyModel) (msgs : List WebhookMessage) (db : Db) : StepResult Unit :=
  match msgs with
  | [] => ⟨.ok (), db, []⟩
  | msg :: rest =>
    let s := process_message_event env company db msg
    match s.res with
    | .error e => ⟨.error e, s.db, s.trace⟩
    | .ok _ =>
      let r := handle_messages env company rest s.db
      ⟨r.res, r.db, s.trace ++ r.trace⟩

/-- The client-creation tail of one `handle_contacts` iteration
(src/services/webhook_handler.rs lines 376-482): synthesize full name, email,
phone and chat linkage, look up the bot user (query failure propagates), and
insert (failure caught and logged). -/
def contact_insert_step (env : Env) (db : Db) (contact : WebhookContactEvent) (tr : List Eff) : StepResult Unit :=
  let phoneFallback :=
    match contact.phone with
    | some p => (validate_and_normalize_phone p).getD "Неизвестный контакт"
    | none => "Неизвестный контакт"
  let full_name :=
    match contact.name with
    | some n => (validate_and_normalize_name n).getD phoneFallback
    | none => phoneFallback
  let genEmail := contact.contact_id ++ "+" ++ toString env.now ++ "@generated.wazzup"
  let email :=
    match contact.email with
    | some e => (validate_and_normalize_email e).getD genEmail
    | none => genEmail
  let phone := contact.phone.bind validate_and_normalize_phone
  let wazzup_chat :=
    match contact.chat_id with
    | some c => if (trimString c).length = 0 then none else some (trimString c)
    | none => none
  if env.findFails then ⟨.error .dbError, db, tr ++ [.query "users"]⟩
  else
    let bot_user_id := find_bot_user db.users
    if env.writeFails then ⟨.ok (), db, tr ++ [.query "users"]⟩
    else
      ⟨.ok (),
       {db with
         clients := db.clients ++ [⟨db.nextClientId, full_name, email, phone, wazzup_chat, bot_user_id, env.now⟩],
         nextClientId := db.nextClientId + 1},
       tr ++ [.query "users", .insert "clients"]⟩

/-- The chat-id existence check of one `handle_contacts` iteration
(src/services/webhook_handler.rs lines 346-374), reached when no client
matched by email: skip when a client with this `wazzup_chat` exists, otherwise
create. -/
def contact_chat_check (env : Env) (db : Db) (contact : WebhookContactEvent) (tr : List Eff) : StepResult Unit :=
  match (match contact.chat_id with
         | some cid => if (trimString cid).length = 0 then none else some cid
         | none => none) with
  | some cid =>
    if env.findFails then ⟨.error .dbError, db, tr ++ [.query "clients"]⟩
    else
      match db.clients.find? (fun c => c.wazzup_chat == some cid) with
      | some _ => ⟨.ok (), db, tr ++ [.query "clients"]⟩
      | none => contact_insert_step env db contact (tr ++ [.query "clients"])
  | none => contact_insert_step env db contact tr

/-- One iteration of the `handle_contacts` loop
(src/services/webhook_handler.rs lines 286-482): id validation (skip on
failure), first-write-wins existence checks by email then by chat id (query
failures propagate), then client creation. -/
def process_contact_event (env : Env) (db : Db) (contact : WebhookContactEvent) : StepResult Unit :=
  if !(validate_id contact.contact_id) then ⟨.ok (), db, []⟩
  else
    match (match contact.email with
           | some e => if (trimString e).length = 0 then none else some e
           | none => none) with
    | some e =>
      if env.findFails then ⟨.error .dbError, db, [.query "clients"]⟩
      else
        match db.clients.find? (fun c => c.email == e) with
        | some _ => ⟨.ok (), db, [.query "clients"]⟩
        | none => contact_chat_check env db contact [.query "clients"]
    | none => contact_chat_check env db contact []

/-- src/services/webhook_handler.rs `handle_contacts`: process the contact
events in array order; an error propagated out of one iteration aborts the
batch. -/
def handle_contacts (env : Env) (contacts : List WebhookContactEvent) (db : Db) : StepResult Unit :=
  match contacts with
  | [] => ⟨.ok (), db, []⟩
  | contact :: rest =>
    let s := process_contact_event env db contact
    match s.res with
    | .error e => ⟨.error e, s.db, s.trace⟩
    | .ok _ =>
      let r := handle_contacts env rest s.db
      ⟨r.res, r.db, s.trace ++ r.trace⟩

/-- src/services/webhook_handler.rs `get_client_db_conn`: validate the tenant
database name (alphanumeric or underscore only), then open a connection. -/
def get_client_db_conn (env : Env) (company : CompanyModel) : Except AppError Unit :=
  if !(company.database_name.data.all (fun c => isAlphanumeric c || c == '_')) then
    .error (.invalidInput "Invalid database name format")
  else if env.connectOk then .ok () else .error .dbError

/-- The tail of `handle_webhook` after the batch-size checks
(src/services/webhook_handler.rs lines 209-275): test short-circuit, tenant
connection, contacts then messages. -/
def handle_webhook_after_checks (env : Env) (company : CompanyModel) (clientDb : Db) (webhook : WebhookRequest) : StepResult Unit :=
  if webhook.test == some true then ⟨.ok (), clientDb, []⟩
  else
    match get_client_db_conn env company with
    | .error e => ⟨.error e, clientDb, []⟩
    | .ok _ =>
      let s := match webhook.contacts with
        | some contacts => handle_contacts env contacts clientDb
        | none => ⟨.ok (), clientDb, []⟩
      match s.res with
      | .error e => ⟨.error e, s.db, s.trace⟩
      | .ok _ =>
        match webhook.messages with
        | some msgs =>
          let r := handle_messages env company msgs s.db
          ⟨r.res, r.db, s.trace ++ r.trace⟩
        | none => ⟨.ok (), s.db, s.trace⟩

/-- The message-count guard of `handle_webhook`
(src/services/webhook_handler.rs lines 202-207). -/
def handle_webhook_messages_check (env : Env) (company : CompanyModel) (clientDb : Db) (webhook : WebhookRequest) : StepResult Unit :=
  match webhook.messages with
  | some msgs =>
    if msgs.length > 100 then
      ⟨.error (.invalidInput "Too many messages in single webhook request"), clientDb, []⟩
    else handle_webhook_after_checks env company clientDb webhook
  | none => handle_webhook_after_checks env company clientDb webhook

/-- The contact-count guard of `handle_webhook`
(src/services/webhook_handler.rs lines 195-200). -/
def handle_webhook_contacts_check (env : Env) (company : CompanyModel) (clientDb : Db) (webhook : WebhookRequest) : StepResult Unit :=
  match webhook.contacts with
  | some contacts =>
    if contacts.length > 100 then
      ⟨.error (.invalidInput "Too many contacts in single webhook request"), clientDb, []⟩
    else handle_webhook_messages_check env company clientDb webhook
  | none => handle_webhook_messages_check env company clientDb webhook

/-- src/services/webhook_handler.rs `handle_webhook`: resolve the tenant
(`NotFound` if absent; silent accept when inactive), bound the batch size,
honour the test flag, connect, and run contact and message reconciliation. -/
def handle_webhook (env : Env) (mainDb : List CompanyModel) (clientDb : Db) (company_id : Int) (webhook : WebhookRequest) : StepResult Unit :=
  if env.findFails then ⟨.error .dbError, clientDb, []⟩
  else
    match mainDb.find? (fun c => c.id == company_id) with
    | none => ⟨.error (.notFound ("Company with id " ++ toString company_id ++ " not found")), clientDb, []⟩
    | some company =>
      if company.is_active == some true then
        handle_webhook_contacts_check env company clientDb webhook
      else ⟨.ok (), clientDb, []⟩

/-- Cache state of the per-tenant connection pool
(src/database/pool_manager.rs `ClientDbPoolManager`): logical name to
connection handle, the next fresh handle, and the log of connection-open
attempts. -/
structure PoolState where
  cache : List (String × Nat)
  nextConn : Nat
  opened : List String
deriving DecidableEq, Repr

/-- src/database/pool_manager.rs `ClientDbPoolManager::get_connection`:
validate the logical name (alphanumeric or underscore only), return the cached
handle when alive, otherwise open a new connection and cache it
(`alive` is the liveness probe, `connectOk` the outcome of the open). -/
def ClientDbPoolManager.get_connection (alive : Nat → Bool) (connectOk : Bool) (st : PoolState) (database_name : String) : Except AppError Nat × PoolState :=
  if !(database_name.data.all (fun c => isAlphanumeric c || c == '_')) then
    (.error (.invalidInput "Invalid database name format"), st)
  else
    let fresh : PoolState → Except AppError Nat × PoolState := fun s =>
      let s1 := {s with opened := s.opened ++ [database_name]}
      if connectOk then
        (.ok s1.nextConn,
         {s1 with
           cache := s1.cache.filter (fun e => !(e.1 == database_name)) ++ [(database_name, s1.nextConn)],
           nextConn := s1.nextConn + 1})
      else (.error .dbError, s1)
    match st.cache.find? (fun e => e.1 == database_name) with
    | some e => if alive e.2 then (.ok e.2, st) else fresh st
    | none => fresh st

/-- `n`-fold replay of the same message event, threading the database state
(the effect traces are dropped; an error stops the iteration). -/
def process_message_event_iter (env : Env) (company : CompanyModel) (msg : WebhookMessage) : Nat → Db → Except AppError Unit × Db
  | 0, db => (.ok (), db)
  | n + 1, db =>
    let s := process_message_event env company db msg
    match s.res with
    | .error e => (.error e, s.db)
    | .ok _ => process_message_event_iter env company msg n s.db

/-- Number of stored messages carrying a given primary key. -/
def countMessagesWithId (messages : List MessageRow) (id : String) : Nat :=
  (messages.filter (fun m => m.id == id)).length


/-- Modelled from the spec: hexadecimal digit of a canonical UUID string
(spec section 4.1 IdentifierNormalizer). -/
def isHexDigitChar (c : Char) : Bool :=
  c.isDigit || ('a' ≤ c && c ≤ 'f') || ('A' ≤ c && c ≤ 'F')

/-- Modelled from the spec: a canonical UUID string in 8-4-4-4-12 form
(spec section 4.1: "If `external_id` parses as a canonical UUID string,
returns it unchanged. Otherwise, returns a deterministic namespace-derived
UUID").  Used only to state the spec's normalization claim; the message
pipeline in the source has no such normalizer. -/
def isCanonicalUuid (s : String) : Bool :=
  s.length = 36 &&
  s.data.enum.all (fun p =>
    if p.1 = 8 || p.1 = 13 || p.1 = 18 || p.1 = 23 then p.2 == '-' else isHexDigitChar p.2)

/-! ### Concrete fixtures for witnesses and counterexamples -/

/-- A fault-free environment: bot callback succeeds, sends succeed. -/
def envN : Env := ⟨0, .ok ⟨"success", ""⟩, true, 0, true, false, false⟩

/-- Environment in which every database read query fails. -/
def envFF : Env := ⟨0, .ok ⟨"success", ""⟩, true, 0, true, true, false⟩

/-- Environment in which the bot callback succeeds but reports an error status. -/
def envBotErr : Env := ⟨0, .ok ⟨"error", "fail"⟩, true, 0, true, false, false⟩

/-- An active tenant with no provider API key configured. -/
def companyN : CompanyModel := ⟨1, "acme", "acme_db", "", some true⟩

/-- The empty tenant database. -/
def dbEmpty : Db := ⟨[], [], [], [], [], 1⟩

/-- The spec section 8 scenario message: `{messageId:"m1", channelId:"chan1",
chatId:"55512345", type:"text", text:"hi", isEcho:false}`. -/
def msgM1 : WebhookMessage :=
  ⟨"m1", "chan1", "whatsapp", "55512345", "text", some "hi", none, none, none, none,
   some false, none, none, none, none⟩

/-- The tenant database state after ingesting `msgM1` into the empty database. -/
def dbM1 : Db := (process_message_event envN companyN dbEmpty msgM1).db

/-- A message event with an invalid (space-containing) message id. -/
def msgBadId : WebhookMessage :=
  ⟨"bad id!", "chan1", "whatsapp", "55512345", "text", some "hi", none, none, none, none,
   some false, none, none, none, none⟩

/-- A message event with neither `isEcho` nor `status` set. -/
def msgNoDir : WebhookMessage :=
  ⟨"m3", "chan1", "whatsapp", "55512345", "text", some "hey", none, none, none, none,
   none, none, none, none, none⟩

/-- Tenant database holding a channel `chan1` stored with type `"telegram"`. -/
def dbC5 : Db := ⟨[⟨"chan1", "telegram"⟩], [], [], [], [], 1⟩

/-- A bot user with a configured hook URL. -/
def botUserC6 : UserRow := ⟨1, "bot", some "hook-url"⟩

/-- An admin user: active staff, neither bot nor quality control. -/
def adminUserC6 : UserRow := ⟨2, "admin", none⟩

/-- A client of chat `chat1` whose responsible assignee is the bot user. -/
def clientC6 : ClientRow := ⟨10, "Ivan", "ivan@x", none, some "chat1", some 1, 0⟩

/-- Tenant database for the bot-fallback scenario: bot and admin users, one
client assigned to the bot, chat and channel present. -/
def dbC6 : Db :=
  ⟨[⟨"chan1", "whatsapp"⟩], [⟨"chat1", "chan1"⟩], [clientC6], [botUserC6, adminUserC6], [], 11⟩

/-- An inbound message event in chat `chat1`. -/
def msgC6 : WebhookMessage :=
  ⟨"m2", "chan1", "whatsapp", "chat1", "text", some "hello", none, none, none, none,
   some false, none, none, none, none⟩

/-- Tenant database like `dbC6` but with a manager available as fallback. -/
def dbC6m : Db :=
  ⟨[⟨"chan1", "whatsapp"⟩], [⟨"chat1", "chan1"⟩], [clientC6],
   [botUserC6, ⟨3, "manager", none⟩], [], 11⟩

/-- A stored inbound message row in chat `chat1`. -/
def rowC6 : MessageRow := ⟨"m2", [⟨"text", "hello"⟩], "chat1", 0, some true, some false, none, none, none⟩

/-- A contact event with a non-empty email address. -/
def contactC3 : WebhookContactEvent := ⟨"c1", some "Bob", none, some "bob@x.com", none, none⟩

/-- Environment in which every insert and update fails (reads succeed). -/
def envWF : Env := ⟨0, .ok ⟨"success", ""⟩, true, 0, true, false, true⟩

/-- The client row used by the transfer fixtures. -/
def clientC10 : ClientRow := ⟨10, "Ivan", "ivan@x", none, some "chat1", some 1, 0⟩

/-- `true` when a step failed with an `InvalidInput` error. -/
def resultIsInvalidInput (r : StepResult Unit) : Bool :=
  match r.res with
  | .error e => e.isInvalidInput
  | .ok _ => false

/-- Tenant database with one manager and one client for transfer tests. -/
def dbC10 : Db := ⟨[], [], [clientC10], [⟨3, "manager", none⟩], [], 11⟩

/-- Main database holding the single active tenant `companyN`. -/
def mainDbW : List CompanyModel := [companyN]

/-- A batch of 101 identical message events. -/
def webhookBig : WebhookRequest := ⟨none, some (List.replicate 101 msgM1), none⟩

/-- A pool cache with one cached connection. -/
def poolStW : PoolState := ⟨[("tenant_a", 0)], 5, []⟩

/-- A message event flagged as an echo (sent outside the API). -/
def msgEchoT : WebhookMessage :=
  ⟨"m4", "chan1", "whatsapp", "55512345", "text", some "yo", none, none, none, none,
   some true, none, none, none, none⟩

/-- A message event with no echo flag and an explicit "inbound" status. -/
def msgStatusIn : WebhookMessage :=
  ⟨"m5", "chan1", "whatsapp", "55512345", "text", some "sup", none, none, none, none,
   none, some "inbound", none, none, none⟩

/-- The message row stored for `msgM1`. -/
def rowM1 : MessageRow :=
  ⟨"m1", [⟨"text", "hi"⟩], "55512345", 0, some true, some false, none, none, none⟩

/-! ### Frame and success helper lemmas -/

theorem ensure_channel_exists_frame (env : Env) (db : Db) (msg : WebhookMessage) :
    (ensure_channel_exists env db msg).db.chats = db.chats ∧
    (ensure_channel_exists env db msg).db.clients = db.clients ∧
    (ensure_channel_exists env db msg).db.users = db.users ∧
    (ensure_channel_exists env db msg).db.messages = db.messages ∧
    (ensure_channel_exists env db msg).db.nextClientId = db.nextClientId := by
  unfold ensure_channel_exists
  repeat' split
  all_goals simp

theorem ensure_channel_exists_ok (env : Env) (db : Db) (msg : WebhookMessage)
    (hff : env.findFails = false) :
    (ensure_channel_exists env db msg).res = .ok () := by
  unfold ensure_channel_exists
  repeat' split
  all_goals simp_all

theorem ensure_chat_exists_frame (env : Env) (db : Db) (msg : WebhookMessage) :
    (ensure_chat_exists env db msg).db.channels = db.channels ∧
    (ensure_chat_exists env db msg).db.clients = db.clients ∧
    (ensure_chat_exists env db msg).db.users = db.users ∧
    (ensure_chat_exists env db msg).db.messages = db.messages ∧
    (ensure_chat_exists env db msg).db.nextClientId = db.nextClientId := by
  unfold ensure_chat_exists
  repeat' split
  all_goals simp

theorem ensure_chat_exists_ok (env : Env) (db : Db) (msg : WebhookMessage)
    (hff : env.findFails = false) :
    (ensure_chat_exists env db msg).res = .ok () := by
  unfold ensure_chat_exists
  repeat' split
  all_goals simp_all

theorem create_client_from_message_frame (env : Env) (db : Db) (msg : WebhookMessage) (company : CompanyModel) :
    (create_client_from_message env db msg company).db.channels = db.channels ∧
    (create_client_from_message env db msg company).db.chats = db.chats ∧
    (create_client_from_message env db msg company).db.users = db.users ∧
    (create_client_from_message env db msg company).db.messages = db.messages := by
  unfold create_client_from_message
  repeat' split
  all_goals simp

theorem create_client_from_message_ok (env : Env) (db : Db) (msg : WebhookMessage) (company : CompanyModel)
    (hff : env.findFails = false) :
    (create_client_from_message env db msg company).res = .ok () := by
  unfold create_client_from_message
  repeat' split
  all_goals simp_all

theorem transfer_to_random_manager_frame (env : Env) (db : Db) (client_id : Int) :
    (transfer_to_random_manager env db client_id).db.channels = db.channels ∧
    (transfer_to_random_manager env db client_id).db.chats = db.chats ∧
    (transfer_to_random_manager env db client_id).db.users = db.users ∧
    (transfer_to_random_manager env db client_id).db.messages = db.messages ∧
    (transfer_to_random_manager env db client_id).db.nextClientId = db.nextClientId := by
  unfold transfer_to_random_manager
  cases hsel : (select_random_manager env db).1 with
  | error e => simp [hsel]
  | ok manager =>
    cases hff : env.findFails with
    | true => simp [hsel, hff]
    | false =>
      cases hfind : db.clients.find? (fun c => c.id == client_id) with
      | none => simp [hsel, hff, hfind]
      | some c =>
        cases hwf : env.writeFails with
        | true => simp [hsel, hff, hfind, hwf]
        | false => simp [hsel, hff, hfind, hwf]

theorem handle_bot_interaction_frame (env : Env) (db : Db) (message : MessageRow) :
    (handle_bot_interaction env db message).db.channels = db.channels ∧
    (handle_bot_interaction env db message).db.chats = db.chats ∧
    (handle_bot_interaction env db message).db.users = db.users ∧
    (handle_bot_interaction env db message).db.messages = db.messages ∧
    (handle_bot_interaction env db message).db.nextClientId = db.nextClientId := by
  unfold handle_bot_interaction
  cases hff : env.findFails with
  | true => simp [hff]
  | false =>
    cases hc : db.clients.find? (fun c => c.wazzup_chat == some message.chat_id) with
    | none => simp [hff, hc]
    | some client =>
      cases hr : client.responsible_user_id with
      | none => simp [hff, hc, hr]
      | some uid =>
        cases hg : (get_bot_hook_url env db uid).1 with
        | error e => simp [hff, hc, hr, hg]
        | ok hookOpt =>
          cases hookOpt with
          | none => simp [hff, hc, hr, hg]
          | some url =>
            cases hb : env.botResult with
            | ok resp =>
              by_cases hs : resp.status = "success"
              · simp [hff, hc, hr, hg, hb, hs]
              · by_cases he : resp.status = "error"
                · simp [hff, hc, hr, hg, hb, hs, he, transfer_to_random_manager_frame]
                · simp [hff, hc, hr, hg, hb, hs, he]
            | error u => simp [hff, hc, hr, hg, hb, transfer_to_random_manager_frame]

theorem process_message_event_ok (env : Env) (company : CompanyModel) (db : Db) (msg : WebhookMessage)
    (hff : env.findFails = false) :
    (process_message_event env company db msg).res = .ok () := by
  unfold process_message_event
  cases hv1 : validate_id msg.message_id with
  | false => simp [hv1]
  | true =>
  cases hv2 : validate_id msg.channel_id with
  | false => simp [hv1, hv2]
  | true =>
  cases hv3 : validate_id msg.chat_id with
  | false => simp [hv1, hv2, hv3]
  | true =>
  simp only [hv1, hv2, hv3, hff, Bool.not_true, Bool.false_eq_true, if_false]
  cases hfind : db.messages.find? (fun m => m.id == msg.message_id) with
  | some m => simp [hfind]
  | none =>
    simp only [hfind]
    cases hdup : (db.messages.filter (fun m => m.chat_id == msg.chat_id && m.content == content_for_check msg)).isEmpty with
    | false => simp [hdup]
    | true =>
      simp only [hdup, Bool.not_true, Bool.false_eq_true, if_false]
      generalize hs1 : ensure_channel_exists env db msg = s1
      have h1 : s1.res = .ok () := by rw [← hs1]; exact ensure_channel_exists_ok env db msg hff
      rw [h1]
      generalize hs2 : ensure_chat_exists env s1.db msg = s2
      have h2 : s2.res = .ok () := by rw [← hs2]; exact ensure_chat_exists_ok env s1.db msg hff
      rw [h2]
      generalize hs3 : create_client_from_message env s2.db msg company = s3
      have h3 : s3.res = .ok () := by rw [← hs3]; exact create_client_from_message_ok env s2.db msg company hff
      rw [h3]
      cases hwf : env.writeFails <;> cases hd : (determine_message_direction msg).1 <;> simp [hwf, hd]

theorem contact_insert_step_ok (env : Env) (db : Db) (contact : WebhookContactEvent) (tr : List Eff)
    (hff : env.findFails = false) :
    (contact_insert_step env db contact tr).res = .ok () := by
  unfold contact_insert_step
  cases hwf : env.writeFails <;> simp [hff, hwf]

theorem contact_chat_check_ok (env : Env) (db : Db) (contact : WebhookContactEvent) (tr : List Eff)
    (hff : env.findFails = false) :
    (contact_chat_check env db contact tr).res = .ok () := by
  unfold contact_chat_check
  cases hc : contact.chat_id with
  | none => simp only [hc]; exact contact_insert_step_ok env db contact tr hff
  | some cid =>
    simp only [hc]
    by_cases hlen : (trimString cid).length = 0
    · simp only [hlen, if_true, reduceIte]
      exact contact_insert_step_ok env db contact tr hff
    · simp only [hlen, if_false, reduceIte, hff, Bool.false_eq_true]
      cases hfind : db.clients.find? (fun c => c.wazzup_chat == some cid) with
      | some c => simp [hfind]
      | none => simp only [hfind]; exact contact_insert_step_ok env db contact (tr ++ [.query "clients"]) hff

theorem process_contact_event_ok (env : Env) (db : Db) (contact : WebhookContactEvent)
    (hff : env.findFails = false) :
    (process_contact_event env db contact).res = .ok () := by
  unfold process_contact_event
  cases hv : validate_id contact.contact_id with
  | false => simp [hv]
  | true =>
    simp only [hv, Bool.not_true, Bool.false_eq_true, if_false]
    cases he : contact.email with
    | none => simp only [he]; exact contact_chat_check_ok env db contact [] hff
    | some e =>
      simp only [he]
      by_cases hlen : (trimString e).length = 0
      · simp only [hlen, if_true, reduceIte]
        exact contact_chat_check_ok env db contact [] hff
      · simp only [hlen, if_false, reduceIte, hff, Bool.false_eq_true]
        cases hfind : db.clients.find? (fun c => c.email == e) with
        | some c => simp [hfind]
        | none => simp only [hfind]; exact contact_chat_check_ok env db contact [.query "clients"] hff

theorem handle_messages_ok (env : Env) (company : CompanyModel) (msgs : List WebhookMessage)
    (hff : env.findFails = false) :
    ∀ db : Db, (handle_messages env company msgs db).res = .ok () := by
  induction msgs with
  | nil => intro db; rfl
  | cons msg rest ih =>
    intro db
    unfold handle_messages
    generalize hs : process_message_event env company db msg = s
    have h1 : s.res = .ok () := by rw [← hs]; exact process_message_event_ok env company db msg hff
    have h2 := ih s.db
    simp [h1, h2]

theorem handle_contacts_ok (env : Env) (contacts : List WebhookContactEvent)
    (hff : env.findFails = false) :
    ∀ db : Db, (handle_contacts env contacts db).res = .ok () := by
  induction contacts with
  | nil => intro db; rfl
  | cons contact rest ih =>
    intro db
    unfold handle_contacts
    generalize hs : process_contact_event env db contact = s
    have h1 : s.res = .ok () := by rw [← hs]; exact process_contact_event_ok env db contact hff
    have h2 := ih s.db
    simp [h1, h2]

theorem mem_insertByIdAsc {u a : UserRow} {l : List UserRow} :
    a ∈ insertByIdAsc u l ↔ a = u ∨ a ∈ l := by
  induction l with
  | nil => simp [insertByIdAsc]
  | cons v vs ih =>
    unfold insertByIdAsc
    by_cases h : u.id ≤ v.id
    · simp [h]
    · simp only [h, if_false, reduceIte, List.mem_cons, ih]
      tauto

theorem mem_sortByIdAsc {l : List UserRow} {a : UserRow} : a ∈ sortByIdAsc l ↔ a ∈ l := by
  induction l with
  | nil => simp [sortByIdAsc]
  | cons u us ih => simp [sortByIdAsc, mem_insertByIdAsc, ih]

theorem insertByIdAsc_ne_nil (u : UserRow) (l : List UserRow) : insertByIdAsc u l ≠ [] := by
  cases l with
  | nil => simp [insertByIdAsc]
  | cons v vs =>
    unfold insertByIdAsc
    by_cases h : u.id ≤ v.id <;> simp [h]

theorem sortByIdAsc_eq_nil {l : List UserRow} : sortByIdAsc l = [] ↔ l = [] := by
  cases l with
  | nil => simp [sortByIdAsc]
  | cons u us =>
    simp only [sortByIdAsc]
    constructor
    · intro h; exact absurd h (insertByIdAsc_ne_nil u (sortByIdAsc us))
    · intro h; exact absurd h (by simp)

theorem getD_mem_of_mem {α : Type} {l : List α} {d : α} (i : Nat) (hd : d ∈ l) : l.getD i d ∈ l := by
  unfold List.getD
  cases h : l.get? i with
  | none => simpa using hd
  | some a =>
    have := List.get?_mem h
    simpa using this

/-- `select_random_manager` returns `NotFound` exactly when no user has role
`"manager"`, and otherwise some user with role `"manager"`. -/
theorem select_random_manager_spec (env : Env) (db : Db) (hff : env.findFails = false) :
    (db.users.filter (fun u => u.role == "manager") = [] →
      (select_random_manager env db).1 = .error (.notFound "No managers available")) ∧
    (db.users.filter (fun u => u.role == "manager") ≠ [] →
      ∃ m, (select_random_manager env db).1 = .ok m ∧ m ∈ db.users ∧ m.role = "manager") := by
  unfold select_random_manager
  simp only [hff, Bool.false_eq_true, if_false]
  cases hsort : sortByIdAsc (db.users.filter (fun u => u.role == "manager")) with
  | nil =>
    have hl : db.users.filter (fun u => u.role == "manager") = [] := sortByIdAsc_eq_nil.mp hsort
    constructor
    · intro _; rfl
    · intro h; exact absurd hl h
  | cons m0 rest =>
    constructor
    · intro hl
      rw [hl] at hsort
      simp [sortByIdAsc] at hsort
    · intro _
      refine ⟨(m0 :: rest).getD (env.pick % (m0 :: rest).length) m0, rfl, ?_⟩
      have hmem : (m0 :: rest).getD (env.pick % (m0 :: rest).length) m0 ∈ m0 :: rest :=
        getD_mem_of_mem _ (by simp)
      have hstep : ∀ a : UserRow, a ∈ m0 :: rest → a ∈ db.users ∧ a.role = "manager" := by
        intro a ha
        have ha2 : a ∈ sortByIdAsc (db.users.filter (fun u => u.role == "manager")) := by
          rw [hsort]; exact ha
        have ha3 := List.mem_filter.mp (mem_sortByIdAsc.mp ha2)
        exact ⟨ha3.1, by simpa using ha3.2⟩
      exact ⟨(hstep _ hmem).1, (hstep _ hmem).2⟩

/-! ### Claim theorems -/

/-- C1: processing a message event whose message id already identifies a
stored message is a no-op for that event: the handler performs only the dedup
query (no writes), leaves the database unchanged, replaying the event any
number of times keeps the database fixed, and the message with that id remains
stored exactly once. -/
theorem c1_message_replay_idempotent
    (env : Env) (company : CompanyModel) (db : Db) (msg : WebhookMessage) (m0 : MessageRow)
    (hv1 : validate_id msg.message_id = true) (hv2 : validate_id msg.channel_id = true)
    (hv3 : validate_id msg.chat_id = true)
    (hff : env.findFails = false)
    (hfind : db.messages.find? (fun m => m.id == msg.message_id) = some m0)
    (hcount : countMessagesWithId db.messages msg.message_id = 1) :
    process_message_event env company db msg = ⟨.ok (), db, [.query "wazzup_messages"]⟩ ∧
    (∀ e ∈ (process_message_event env company db msg).trace, e.isWrite = false) ∧
    (∀ n, process_message_event_iter env company msg n db = (.ok (), db)) ∧
    countMessagesWithId (process_message_event env company db msg).db.messages msg.message_id = 1 := by
  have hstep : process_message_event env company db msg = ⟨.ok (), db, [.query "wazzup_messages"]⟩ := by
    unfold process_message_event
    simp [hv1, hv2, hv3, hff, hfind]
  refine ⟨hstep, ?_, ?_, ?_⟩
  · rw [hstep]
    intro e he
    simp at he
    subst he
    rfl
  · intro n
    induction n with
    | zero => rfl
    | succ k ih =>
      simp only [process_message_event_iter, hstep]
      simpa using ih
  · rw [hstep]
    exact hcount

/-- Witness for C1: the spec section 8 scenario state replayed. -/
theorem c1_witness :
    process_message_event envN companyN dbM1 msgM1 = ⟨.ok (), dbM1, [.query "wazzup_messages"]⟩ ∧
    (∀ n, process_message_event_iter envN companyN msgM1 n dbM1 = (.ok (), dbM1)) := by
  have h := c1_message_replay_idempotent envN companyN dbM1 msgM1 rowM1
    (by decide) (by decide) (by decide) (by decide) (by decide) (by decide)
  exact ⟨h.1, h.2.2.1⟩

theorem ensure_channel_exists_creates (env : Env) (db : Db) (msg : WebhookMessage)
    (hff : env.findFails = false) (hwf : env.writeFails = false)
    (hchan : db.channels.find? (fun ch => ch.id == msg.channel_id) = none) :
    (ensure_channel_exists env db msg).db.channels = db.channels ++ [⟨msg.channel_id, msg.chat_type⟩] := by
  unfold ensure_channel_exists
  simp [hff, hwf, hchan]

theorem ensure_channel_exists_keeps (env : Env) (db : Db) (msg : WebhookMessage) (ch : ChannelRow)
    (hff : env.findFails = false)
    (hchan : db.channels.find? (fun c => c.id == msg.channel_id) = some ch) :
    (ensure_channel_exists env db msg).db.channels = db.channels := by
  unfold ensure_channel_exists
  simp [hff, hchan]

theorem ensure_chat_exists_creates (env : Env) (db : Db) (msg : WebhookMessage)
    (hff : env.findFails = false) (hwf : env.writeFails = false)
    (hchat : db.chats.find? (fun ch => ch.id == msg.chat_id) = none) :
    (ensure_chat_exists env db msg).db.chats = db.chats ++ [⟨msg.chat_id, msg.channel_id⟩] := by
  unfold ensure_chat_exists
  simp [hff, hwf, hchat]

/-- On the full success path (valid ids, reads and writes succeed, not a
duplicate by id or content) the handler stores exactly the computed message
row, and the channel/chat tables are exactly those produced by the two upsert
steps. -/
theorem process_message_event_success (env : Env) (company : CompanyModel) (db : Db) (msg : WebhookMessage)
    (hv1 : validate_id msg.message_id = true) (hv2 : validate_id msg.channel_id = true)
    (hv3 : validate_id msg.chat_id = true)
    (hff : env.findFails = false) (hwf : env.writeFails = false)
    (hfind : db.messages.find? (fun m => m.id == msg.message_id) = none)
    (hdup : db.messages.filter (fun m => m.chat_id == msg.chat_id && m.content == content_for_check msg) = []) :
    (process_message_event env company db msg).res = .ok () ∧
    (process_message_event env company db msg).db.messages = db.messages ++ [saved_message_row env msg] ∧
    (process_message_event env company db msg).db.channels = (ensure_channel_exists env db msg).db.channels ∧
    (process_message_event env company db msg).db.chats =
      (ensure_chat_exists env (ensure_channel_exists env db msg).db msg).db.chats := by
  unfold process_message_event
  simp only [hv1, hv2, hv3, hff, hfind, hdup, Bool.not_true, Bool.false_eq_true, if_false,
    List.isEmpty_nil, Bool.not_false, if_true, ite_false, ite_true]
  generalize hs1 : ensure_channel_exists env db msg = s1
  have h1 : s1.res = .ok () := by rw [← hs1]; exact ensure_channel_exists_ok env db msg hff
  obtain ⟨f1chats, f1clients, f1users, f1msgs, f1next⟩ := hs1 ▸ ensure_channel_exists_frame env db msg
  rw [h1]
  generalize hs2 : ensure_chat_exists env s1.db msg = s2
  have h2 : s2.res = .ok () := by rw [← hs2]; exact ensure_chat_exists_ok env s1.db msg hff
  obtain ⟨f2chan, f2clients, f2users, f2msgs, f2next⟩ := hs2 ▸ ensure_chat_exists_frame env s1.db msg
  rw [h2]
  generalize hs3 : create_client_from_message env s2.db msg company = s3
  have h3 : s3.res = .ok () := by rw [← hs3]; exact create_client_from_message_ok env s2.db msg company hff
  obtain ⟨f3chan, f3chats, f3users, f3msgs⟩ := hs3 ▸ create_client_from_message_frame env s2.db msg company
  rw [h3]
  simp only [hwf, Bool.false_eq_true, if_false, ite_false]
  cases hd : (determine_message_direction msg).1 with
  | false =>
    simp [hd, f1chats, f1msgs, f2msgs, f3msgs, f2chan, f3chan, f3chats]
  | true =>
    simp [hd, handle_bot_interaction_frame, f1chats, f1msgs, f2msgs, f3msgs, f2chan, f3chan, f3chats]

/-- Whatever path a message event takes (with reads succeeding), the channels
table ends up either untouched or exactly as the channel-upsert step left it. -/
theorem process_message_event_channels_cases (env : Env) (company : CompanyModel) (db : Db) (msg : WebhookMessage)
    (hff : env.findFails = false) :
    (process_message_event env company db msg).db.channels = db.channels ∨
    (process_message_event env company db msg).db.channels = (ensure_channel_exists env db msg).db.channels := by
  unfold process_message_event
  cases hv1 : validate_id msg.message_id with
  | false => left; simp [hv1]
  | true =>
  cases hv2 : validate_id msg.channel_id with
  | false => left; simp [hv1, hv2]
  | true =>
  cases hv3 : validate_id msg.chat_id with
  | false => left; simp [hv1, hv2, hv3]
  | true =>
  simp only [hv1, hv2, hv3, hff, Bool.not_true, Bool.false_eq_true, if_false, ite_false]
  cases hfind : db.messages.find? (fun m => m.id == msg.message_id) with
  | some m => left; simp [hfind]
  | none =>
    simp only [hfind]
    cases hdupb : (db.messages.filter (fun m => m.chat_id == msg.chat_id && m.content == content_for_check msg)).isEmpty with
    | false => left; simp [hdupb]
    | true =>
      right
      simp only [hdupb, Bool.not_true, Bool.false_eq_true, if_false, Bool.not_false, if_true, ite_false, ite_true]
      generalize hs1 : ensure_channel_exists env db msg = s1
      have h1 : s1.res = .ok () := by rw [← hs1]; exact ensure_channel_exists_ok env db msg hff
      rw [h1]
      generalize hs2 : ensure_chat_exists env s1.db msg = s2
      have h2 : s2.res = .ok () := by rw [← hs2]; exact ensure_chat_exists_ok env s1.db msg hff
      obtain ⟨f2chan, f2clients, f2users, f2msgs, f2next⟩ := hs2 ▸ ensure_chat_exists_frame env s1.db msg
      rw [h2]
      generalize hs3 : create_client_from_message env s2.db msg company = s3
      have h3 : s3.res = .ok () := by rw [← hs3]; exact create_client_from_message_ok env s2.db msg company hff
      obtain ⟨f3chan, f3chats, f3users, f3msgs⟩ := hs3 ▸ create_client_from_message_frame env s2.db msg company
      rw [h3]
      cases hwf : env.writeFails with
      | true => simp [hwf, f2chan, f3chan]
      | false =>
        cases hd : (determine_message_direction msg).1 with
        | false => simp [hwf, hd, f2chan, f3chan]
        | true => simp [hwf, hd, handle_bot_interaction_frame, f2chan, f3chan]

/-- C4: the computed direction follows the spec table — `isEcho=false` is
inbound, `isEcho=true` is outbound, `isEcho` absent with `status="inbound"` is
inbound, and with both absent the direction is the undetermined
("НАПРАВЛЕНИЕ НЕ ОПРЕДЕЛЕНО") one, treated as not-inbound, and the message is
still persisted rather than rejected. -/
theorem c4_direction_inference (msg : WebhookMessage) :
    (msg.is_echo = some false → determine_message_direction msg = (true, "ВХОДЯЩЕЕ (от клиента)")) ∧
    (msg.is_echo = some true → determine_message_direction msg = (false, "ИСХОДЯЩЕЕ (отправлено не из API)")) ∧
    (msg.is_echo = none → msg.status = some "inbound" →
      determine_message_direction msg = (true, "ВХОДЯЩЕЕ (по статусу)")) ∧
    (msg.is_echo = none → msg.status = none →
      determine_message_direction msg = (false, "НАПРАВЛЕНИЕ НЕ ОПРЕДЕЛЕНО") ∧
      ∀ env company db,
        env.findFails = false → env.writeFails = false →
        validate_id msg.message_id = true → validate_id msg.channel_id = true →
        validate_id msg.chat_id = true →
        db.messages.find? (fun m => m.id == msg.message_id) = none →
        db.messages.filter (fun m => m.chat_id == msg.chat_id && m.content == content_for_check msg) = [] →
        (process_message_event env company db msg).res = .ok () ∧
        (process_message_event env company db msg).db.messages = db.messages ++ [saved_message_row env msg]) := by
  refine ⟨?_, ?_, ?_, ?_⟩
  · intro h; simp [determine_message_direction, h]
  · intro h; simp [determine_message_direction, h]
  · intro h1 h2; simp [determine_message_direction, h1, h2]
  · intro h1 h2
    refine ⟨by simp [determine_message_direction, h1, h2], ?_⟩
    intro env company db hff hwf hv1 hv2 hv3 hfind hdup
    have h := process_message_event_success env company db msg hv1 hv2 hv3 hff hwf hfind hdup
    exact ⟨h.1, h.2.1⟩

/-- Witness for C4: the four direction cases on concrete events, and a
persisted message for the both-absent case. -/
theorem c4_witness :
    determine_message_direction msgM1 = (true, "ВХОДЯЩЕЕ (от клиента)") ∧
    determine_message_direction msgEchoT = (false, "ИСХОДЯЩЕЕ (отправлено не из API)") ∧
    determine_message_direction msgStatusIn = (true, "ВХОДЯЩЕЕ (по статусу)") ∧
    determine_message_direction msgNoDir = (false, "НАПРАВЛЕНИЕ НЕ ОПРЕДЕЛЕНО") ∧
    (process_message_event envN companyN dbEmpty msgNoDir).res = .ok () ∧
    (process_message_event envN companyN dbEmpty msgNoDir).db.messages = [saved_message_row envN msgNoDir] := by
  have h1 := (c4_direction_inference msgM1).1 rfl
  have h2 := (c4_direction_inference msgEchoT).2.1 rfl
  have h3 := (c4_direction_inference msgStatusIn).2.2.1 rfl rfl
  have h4 := (c4_direction_inference msgNoDir).2.2.2 rfl rfl
  have h5 := h4.2 envN companyN dbEmpty rfl rfl (by decide) (by decide) (by decide) (by decide) (by decide)
  exact ⟨h1, h2, h3, h4.1, h5.1, by simpa using h5.2⟩

/-- C2 counterexample: for the spec section 8 scenario event (chat id
`"55512345"`), the stored chat and message ids are the raw external strings —
`"55512345"` is not a canonical UUID and has not been replaced by any
namespace-derived UUID, so no identifier normalization is applied before
storage. -/
theorem c2_counterexample :
    (process_message_event envN companyN dbEmpty msgM1).db.chats = [⟨"55512345", "chan1"⟩] ∧
    (process_message_event envN companyN dbEmpty msgM1).db.messages = [rowM1] ∧
    rowM1.id = "m1" ∧ rowM1.chat_id = "55512345" ∧
    isCanonicalUuid "55512345" = false ∧ isCanonicalUuid "m1" = false := by
  decide

/-- C2 (amended): the message pipeline applies no identifier normalization —
the channel, chat and message rows it creates store the external identifier
strings verbatim, so the same external string trivially always maps to the
same stored identifier. -/
theorem c2_amended_ids_stored_verbatim (env : Env) (company : CompanyModel) (db : Db) (msg : WebhookMessage)
    (hv1 : validate_id msg.message_id = true) (hv2 : validate_id msg.channel_id = true)
    (hv3 : validate_id msg.chat_id = true)
    (hff : env.findFails = false) (hwf : env.writeFails = false)
    (hfind : db.messages.find? (fun m => m.id == msg.message_id) = none)
    (hdup : db.messages.filter (fun m => m.chat_id == msg.chat_id && m.content == content_for_check msg) = [])
    (hchan : db.channels.find? (fun ch => ch.id == msg.channel_id) = none)
    (hchat : db.chats.find? (fun ch => ch.id == msg.chat_id) = none) :
    (process_message_event env company db msg).res = .ok () ∧
    (process_message_event env company db msg).db.channels = db.channels ++ [⟨msg.channel_id, msg.chat_type⟩] ∧
    (process_message_event env company db msg).db.chats = db.chats ++ [⟨msg.chat_id, msg.channel_id⟩] ∧
    (process_message_event env company db msg).db.messages = db.messages ++ [saved_message_row env msg] ∧
    (saved_message_row env msg).id = msg.message_id ∧
    (saved_message_row env msg).chat_id = msg.chat_id := by
  obtain ⟨hres, hmsgs, hchansEq, hchatsEq⟩ :=
    process_message_event_success env company db msg hv1 hv2 hv3 hff hwf hfind hdup
  refine ⟨hres, ?_, ?_, hmsgs, rfl, rfl⟩
  · rw [hchansEq]
    exact ensure_channel_exists_creates env db msg hff hwf hchan
  · rw [hchatsEq]
    have f1 := ensure_channel_exists_frame env db msg
    have hc := ensure_chat_exists_creates env (ensure_channel_exists env db msg).db msg hff hwf
      (by rw [f1.1]; exact hchat)
    rw [hc, f1.1]

/-- Witness for C2 (amended): the scenario event stores its three raw ids. -/
theorem c2_witness :
    (process_message_event envN companyN dbEmpty msgM1).db.channels = [⟨"chan1", "whatsapp"⟩] ∧
    (process_message_event envN companyN dbEmpty msgM1).db.chats = [⟨"55512345", "chan1"⟩] ∧
    (process_message_event envN companyN dbEmpty msgM1).db.messages = [saved_message_row envN msgM1] ∧
    (saved_message_row envN msgM1).id = "m1" := by
  have h := c2_amended_ids_stored_verbatim envN companyN dbEmpty msgM1
    (by decide) (by decide) (by decide) rfl rfl (by decide) (by decide) (by decide) (by decide)
  exact ⟨by simpa using h.2.1, by simpa using h.2.2.1, by simpa using h.2.2.2.1, h.2.2.2.2.1⟩

/-- C5 counterexample: channel `chan1` is stored with type `"telegram"`; a
message event for `chan1` with chat type `"whatsapp"` is processed
successfully, yet the stored channel type remains `"telegram"` — the type is
not corrected on mismatch. -/
theorem c5_counterexample :
    (process_message_event envN companyN dbC5 msgM1).res = .ok () ∧
    msgM1.chat_type = "whatsapp" ∧
    (process_message_event envN companyN dbC5 msgM1).db.channels = [⟨"chan1", "telegram"⟩] := by
  decide

/-- C5 (amended): the channel upsert creates an absent channel with the
event's transport type, but an existing channel row is left entirely
unchanged, even when its stored type differs from the event's chat type. -/
theorem c5_amended_channel_upsert (env : Env) (company : CompanyModel) (db : Db) (msg : WebhookMessage)
    (hff : env.findFails = false) :
    (∀ ch, db.channels.find? (fun c => c.id == msg.channel_id) = some ch →
      (process_message_event env company db msg).db.channels = db.channels) ∧
    (db.channels.find? (fun c => c.id == msg.channel_id) = none →
      env.writeFails = false →
      validate_id msg.message_id = true → validate_id msg.channel_id = true →
      validate_id msg.chat_id = true →
      db.messages.find? (fun m => m.id == msg.message_id) = none →
      db.messages.filter (fun m => m.chat_id == msg.chat_id && m.content == content_for_check msg) = [] →
      (process_message_event env company db msg).db.channels = db.channels ++ [⟨msg.channel_id, msg.chat_type⟩]) := by
  constructor
  · intro ch hch
    rcases process_message_event_channels_cases env company db msg hff with h | h
    · exact h
    · rw [h]
      exact ensure_channel_exists_keeps env db msg ch hff hch
  · intro hchan hwf hv1 hv2 hv3 hfind hdup
    obtain ⟨hres, hmsgs, hchansEq, hchatsEq⟩ :=
      process_message_event_success env company db msg hv1 hv2 hv3 hff hwf hfind hdup
    rw [hchansEq]
    exact ensure_channel_exists_creates env db msg hff hwf hchan

/-- Witness for C5 (amended): the two upsert behaviours on concrete states. -/
theorem c5_witness :
    (process_message_event envN companyN dbC5 msgM1).db.channels = dbC5.channels ∧
    (process_message_event envN companyN dbEmpty msgM1).db.channels = [⟨"chan1", "whatsapp"⟩] := by
  have h1 := (c5_amended_channel_upsert envN companyN dbC5 msgM1 rfl).1 ⟨"chan1", "telegram"⟩ (by decide)
  have h2 := (c5_amended_channel_upsert envN companyN dbEmpty msgM1 rfl).2
    (by decide) rfl (by decide) (by decide) (by decide) (by decide) (by decide)
  exact ⟨h1, by simpa using h2⟩

theorem select_random_manager_trace (env : Env) (db : Db) :
    (select_random_manager env db).2 = [.query "users"] := by
  unfold select_random_manager
  cases hff : env.findFails with
  | true => simp [hff]
  | false =>
    cases hsort : sortByIdAsc (db.users.filter (fun u => u.role == "manager")) with
    | nil => simp [hff, hsort]
    | cons m0 rest => simp [hff, hsort]

/-- Exact behaviour of `transfer_to_random_manager` when the client row
exists: `NotFound` with the database untouched when no manager exists,
otherwise a durable reassignment to some user with role `"manager"`. -/
theorem transfer_to_random_manager_spec (env : Env) (db : Db) (client_id : Int) (cl : ClientRow)
    (hff : env.findFails = false) (hwf : env.writeFails = false)
    (hcl : db.clients.find? (fun c => c.id == client_id) = some cl) :
    (db.users.filter (fun u => u.role == "manager") = [] →
      transfer_to_random_manager env db client_id =
        ⟨.error (.notFound "No managers available"), db, [.query "users"]⟩) ∧
    (db.users.filter (fun u => u.role == "manager") ≠ [] →
      ∃ m, m ∈ db.users ∧ m.role = "manager" ∧
        transfer_to_random_manager env db client_id =
          ⟨.ok (), {db with clients := db.clients.map (reassignTo client_id m.id)},
           [.query "users", .query "clients", .update "clients"]⟩) := by
  have hspec := select_random_manager_spec env db hff
  have htr := select_random_manager_trace env db
  constructor
  · intro hempty
    have hsel := hspec.1 hempty
    unfold transfer_to_random_manager
    simp [hsel, htr]
  · intro hne
    obtain ⟨m, hmsel, hmem, hrole⟩ := hspec.2 hne
    refine ⟨m, hmem, hrole, ?_⟩
    unfold transfer_to_random_manager
    simp [hmsel, hff, hcl, hwf, htr]

/-- C10: `transfer_to_random_manager` is atomic on failure — with no
`"manager"`-role user in the tenant database it returns `NotFound` and leaves
the client table (in particular `responsible_user_id`) unchanged; with at
least one manager it durably sets the client's `responsible_user_id` to one of
the managers' ids. -/
theorem c10_transfer_atomic_on_failure (env : Env) (db : Db) (client_id : Int) (cl : ClientRow)
    (hff : env.findFails = false) (hwf : env.writeFails = false)
    (hcl : db.clients.find? (fun c => c.id == client_id) = some cl) :
    (db.users.filter (fun u => u.role == "manager") = [] →
      transfer_to_random_manager env db client_id =
        ⟨.error (.notFound "No managers available"), db, [.query "users"]⟩) ∧
    (db.users.filter (fun u => u.role == "manager") ≠ [] →
      ∃ m, m ∈ db.users ∧ m.role = "manager" ∧
        (transfer_to_random_manager env db client_id).res = .ok () ∧
        (transfer_to_random_manager env db client_id).db.clients =
          db.clients.map (reassignTo client_id m.id)) := by
  have h := transfer_to_random_manager_spec env db client_id cl hff hwf hcl
  refine ⟨h.1, ?_⟩
  intro hne
  obtain ⟨m, hmem, hrole, heq⟩ := h.2 hne
  exact ⟨m, hmem, hrole, by rw [heq], by rw [heq]⟩

/-- Witness for C10: with only a bot and an admin the transfer fails and the
client keeps its assignee; with one manager the client is reassigned. -/
theorem c10_witness :
    transfer_to_random_manager envN dbC6 10 =
      ⟨.error (.notFound "No managers available"), dbC6, [.query "users"]⟩ ∧
    (transfer_to_random_manager envN dbC10 10).res = .ok () := by
  have h1 := (c10_transfer_atomic_on_failure envN dbC6 10 clientC6 rfl rfl (by decide)).1 (by decide)
  have h2 := (c10_transfer_atomic_on_failure envN dbC10 10 clientC10 rfl rfl (by decide)).2 (by decide)
  obtain ⟨m, hmem, hrole, hres, hdb⟩ := h2
  exact ⟨h1, hres⟩

/-- C6 counterexample: the client of chat `chat1` is assigned to a bot user
with a configured hook URL, the bot callback succeeds but reports an error
status, and active non-bot, non-quality-control staff exists (the admin user);
yet after processing the inbound message the client's responsible assignee is
still the bot — the reassignment pool is only users with role `"manager"`, so
the claimed reassignment does not happen. -/
theorem c6_counterexample :
    (process_message_event envBotErr companyN dbC6 msgC6).res = .ok () ∧
    (process_message_event envBotErr companyN dbC6 msgC6).db.clients = [clientC6] ∧
    clientC6.responsible_user_id = some botUserC6.id ∧
    botUserC6.role = "bot" ∧ botUserC6.hook = some "hook-url" ∧
    adminUserC6 ∈ dbC6.users ∧ adminUserC6.role ≠ "bot" ∧ adminUserC6.role ≠ "quality_control" ∧
    envBotErr.botResult = .ok ⟨"error", "fail"⟩ := by
  decide

/-- C6 (amended): when the bot callback reports an `"error"` status or fails,
the client's responsible assignee is durably reassigned to a user with role
`"manager"` (chosen by the random index among managers ordered by id); users
of any other role — including admins — are not eligible, and if no manager
exists the fallback fails with `NotFound` (logged) and the assignee is left
unchanged. -/
theorem c6_amended_bot_fallback (env : Env) (db : Db) (message : MessageRow)
    (client : ClientRow) (botUser : UserRow) (url : String)
    (hff : env.findFails = false) (hwf : env.writeFails = false)
    (hc : db.clients.find? (fun c => c.wazzup_chat == some message.chat_id) = some client)
    (hr : client.responsible_user_id = some botUser.id)
    (hu : db.users.find? (fun u => u.id == botUser.id) = some botUser)
    (hrole : botUser.role = "bot") (hhook : botUser.hook = some url)
    (hcl : db.clients.find? (fun c => c.id == client.id) = some client)
    (hbot : env.botResult = .error () ∨ ∃ emsg, env.botResult = .ok ⟨"error", emsg⟩) :
    (handle_bot_interaction env db message).res = .ok () ∧
    (db.users.filter (fun u => u.role == "manager") = [] →
      (handle_bot_interaction env db message).db = db) ∧
    (db.users.filter (fun u => u.role == "manager") ≠ [] →
      ∃ m, m ∈ db.users ∧ m.role = "manager" ∧
        (handle_bot_interaction env db message).db.clients =
          db.clients.map (reassignTo client.id m.id)) := by
  have hg : get_bot_hook_url env db botUser.id = (.ok (some url), [.query "users"]) := by
    unfold get_bot_hook_url
    simp [hff, hu, hrole, hhook]
  have htrans := transfer_to_random_manager_spec env db client.id client hff hwf hcl
  by_cases hmgr : db.users.filter (fun u => u.role == "manager") = []
  · have ht := htrans.1 hmgr
    unfold handle_bot_interaction
    rcases hbot with hb | ⟨emsg, hb⟩ <;> simp [hff, hc, hr, hg, hb, ht, hmgr]
  · obtain ⟨m, hmem, hrole2, ht⟩ := htrans.2 hmgr
    unfold handle_bot_interaction
    rcases hbot with hb | ⟨emsg, hb⟩ <;>
      · simp [hff, hc, hr, hg, hb, ht, hmgr]
        exact ⟨m, hmem, hrole2, by simp [ht]⟩

/-- Witness for C6 (amended): with a manager present the callback-error path
reassigns and succeeds; with no manager (bot and admin only) the database is
left unchanged. -/
theorem c6_witness :
    (handle_bot_interaction envBotErr dbC6m rowC6).res = .ok () ∧
    (handle_bot_interaction envBotErr dbC6 rowC6).db = dbC6 := by
  have h1 := c6_amended_bot_fallback envBotErr dbC6m rowC6 clientC6 botUserC6 "hook-url"
    rfl rfl (by decide) (by decide) (by decide) (by decide) (by decide) (by decide)
    (Or.inr ⟨"fail", rfl⟩)
  have h2 := c6_amended_bot_fallback envBotErr dbC6 rowC6 clientC6 botUserC6 "hook-url"
    rfl rfl (by decide) (by decide) (by decide) (by decide) (by decide) (by decide)
    (Or.inr ⟨"fail", rfl⟩)
  exact ⟨h1.1, h2.2.1 (by decide)⟩

/-- C7: a batch whose contacts or messages list exceeds 100 entries, addressed
to an existing active tenant, is rejected with an `InvalidInput` error before
any item is processed: the tenant database is returned untouched and no
tenant-database effect (query or write) is performed. -/
theorem c7_oversized_batch_rejected (env : Env) (mainDb : List CompanyModel) (clientDb : Db)
    (company_id : Int) (webhook : WebhookRequest) (company : CompanyModel)
    (hff : env.findFails = false)
    (hcomp : mainDb.find? (fun c => c.id == company_id) = some company)
    (hact : company.is_active = some true)
    (hsize : (∃ cs, webhook.contacts = some cs ∧ cs.length > 100) ∨
             (∃ ms, webhook.messages = some ms ∧ ms.length > 100)) :
    resultIsInvalidInput (handle_webhook env mainDb clientDb company_id webhook) = true ∧
    (handle_webhook env mainDb clientDb company_id webhook).db = clientDb ∧
    (handle_webhook env mainDb clientDb company_id webhook).trace = [] := by
  unfold handle_webhook
  simp only [hff, Bool.false_eq_true, if_false, hcomp, ite_false]
  have hactb : (company.is_active == some true) = true := by simp [hact]
  simp only [hactb, if_true, ite_true]
  unfold handle_webhook_contacts_check
  rcases hsize with ⟨cs, hcs, hlen⟩ | ⟨ms, hms, hlen⟩
  · simp [hcs, hlen, resultIsInvalidInput, AppError.isInvalidInput]
  · cases hc : webhook.contacts with
    | none =>
      simp only [hc]
      unfold handle_webhook_messages_check
      simp [hms, hlen, resultIsInvalidInput, AppError.isInvalidInput]
    | some cs2 =>
      by_cases h2 : cs2.length > 100
      · simp [hc, h2, resultIsInvalidInput, AppError.isInvalidInput]
      · simp only [hc, h2, if_false, reduceIte]
        unfold handle_webhook_messages_check
        simp [hms, hlen, resultIsInvalidInput, AppError.isInvalidInput]

/-- Witness for C7: a batch of 101 message events for the active tenant is
rejected with `InvalidInput`, leaving the empty tenant database empty. -/
theorem c7_witness :
    resultIsInvalidInput (handle_webhook envN mainDbW dbEmpty 1 webhookBig) = true ∧
    (handle_webhook envN mainDbW dbEmpty 1 webhookBig).db = dbEmpty ∧
    (handle_webhook envN mainDbW dbEmpty 1 webhookBig).trace = [] := by
  exact c7_oversized_batch_rejected envN mainDbW dbEmpty 1 webhookBig companyN
    rfl (by decide) rfl (Or.inr ⟨List.replicate 101 msgM1, rfl, by decide⟩)

/-- C8: `get_connection` on a logical database name containing any character
that is neither alphanumeric nor an underscore returns the `InvalidInput`
error immediately: the cache is not mutated and no connection open is
attempted (the open-attempt log is unchanged). -/
theorem c8_pool_rejects_invalid_name (alive : Nat → Bool) (connectOk : Bool) (st : PoolState)
    (database_name : String)
    (h : database_name.data.all (fun c => isAlphanumeric c || c == '_') = false) :
    ClientDbPoolManager.get_connection alive connectOk st database_name =
      (.error (.invalidInput "Invalid database name format"), st) := by
  unfold ClientDbPoolManager.get_connection
  simp [h]

/-- Witness for C8: a name with a hyphen is rejected and the pool state kept. -/
theorem c8_witness :
    ClientDbPoolManager.get_connection (fun _ => true) true poolStW "bad-name" =
      (.error (.invalidInput "Invalid database name format"), poolStW) := by
  exact c8_pool_rejects_invalid_name (fun _ => true) true poolStW "bad-name" (by decide)

/-- C3 counterexample: a storage error on the existing-client lookup aborts
the whole contact batch with a database error — the batch call does not
report success, contradicting the claim that every per-item storage error is
caught and logged. -/
theorem c3_counterexample :
    (handle_contacts envFF [contactC3] dbEmpty).res = .error .dbError ∧
    (handle_contacts envFF [contactC3] dbEmpty).db = dbEmpty := by
  decide

/-- C3 (amended): validation failures and row-insert failures are caught and
logged and the batch continues (the batch reports success for any batch and
any write-fault pattern), but a storage error on a lookup query (dedup check,
existing-client check, bot-user lookup) aborts the whole batch with an error.
The read-fault abort is exhibited by the counterexample; this theorem states
the caught side: with reads succeeding, both handlers always report success,
whether or not inserts fail. -/
theorem c3_amended_per_item_isolation (env : Env) (company : CompanyModel)
    (contacts : List WebhookContactEvent) (msgs : List WebhookMessage) (db db2 : Db)
    (hff : env.findFails = false) :
    (handle_contacts env contacts db).res = .ok () ∧
    (handle_messages env company msgs db2).res = .ok () :=
  ⟨handle_contacts_ok env contacts hff db, handle_messages_ok env company msgs hff db2⟩

/-- Witness for C3 (amended): with every insert failing, a batch containing a
valid contact, a valid message and an invalid message still reports success. -/
theorem c3_witness :
    (handle_contacts envWF [contactC3] dbEmpty).res = .ok () ∧
    (handle_messages envWF companyN [msgM1, msgBadId] dbEmpty).res = .ok () := by
  exact c3_amended_per_item_isolation envWF companyN [contactC3] [msgM1, msgBadId] dbEmpty dbEmpty rfl
